import Mathlib

/-!
Verification of the VolumeFader fade controller (volumefader.js, v0.2.0).

The source is a single ES6 class driving a media element's `volume`
attribute along a timed fade. We embed the controller shallowly:

* JavaScript numbers are modelled by `JSNum`: exact rationals plus the
  special values `NaN`, `+Infinity` and `-Infinity`. Floating rounding is
  idealised away (rationals are exact), but the NaN/Infinity comparison and
  arithmetic semantics, on which the validation code paths depend, are
  modelled faithfully.
* The mutable controller object becomes an explicit `FaderState` record;
  each method becomes a pure function from a state (plus the current wall
  clock time, standing for `Date.now()`) to a `MethodResult` holding the
  new state, the list of completion callbacks invoked during the call, the
  exception propagated out of the call if any, and the method's return
  value (`this` or `undefined`).
* `requestAnimationFrame` registration is modelled by a `scheduled` flag:
  `updateVolume` sets it when it re-arms itself, and `fireScheduled`
  models the host later delivering the registered callback.
* Completion callbacks become opaque tokens `JSCallback` carrying an
  identity, whether the supplied value is callable (`instanceof Function`)
  and whether invoking it raises.
-/

/-- A JavaScript number: NaN, +Infinity, -Infinity, or a finite value
(idealised as an exact rational). -/
inductive JSNum where
  | nan : JSNum
  | inf : JSNum
  | ninf : JSNum
  | num (q : ℚ) : JSNum
deriving DecidableEq, Repr

namespace JSNum

/-- `Number.isNaN`. -/
def isNaN : JSNum → Bool
  | nan => true
  | _ => false

/-- JavaScript `<` on numbers: false whenever either operand is NaN. -/
def jsLt : JSNum → JSNum → Bool
  | nan, _ => false
  | _, nan => false
  | inf, _ => false
  | _, inf => true
  | ninf, ninf => false
  | ninf, _ => true
  | _, ninf => false
  | num a, num b => decide (a < b)

/-- JavaScript `<=` on numbers: false whenever either operand is NaN. -/
def jsLe : JSNum → JSNum → Bool
  | nan, _ => false
  | _, nan => false
  | ninf, _ => true
  | _, ninf => false
  | inf, inf => true
  | _, inf => true
  | inf, num _ => false
  | num a, num b => decide (a ≤ b)

/-- JavaScript `>`. -/
def jsGt (a b : JSNum) : Bool := jsLt b a

/-- JavaScript `>=`. -/
def jsGe (a b : JSNum) : Bool := jsLe b a

/-- JavaScript unary negation. -/
def jsNeg : JSNum → JSNum
  | nan => nan
  | inf => ninf
  | ninf => inf
  | num a => num (-a)

/-- JavaScript addition with NaN/Infinity propagation. -/
def jsAdd : JSNum → JSNum → JSNum
  | nan, _ => nan
  | _, nan => nan
  | inf, ninf => nan
  | ninf, inf => nan
  | inf, _ => inf
  | _, inf => inf
  | ninf, _ => ninf
  | _, ninf => ninf
  | num a, num b => num (a + b)

/-- JavaScript subtraction, `a - b = a + (-b)`. -/
def jsSub (a b : JSNum) : JSNum := jsAdd a (jsNeg b)

/-- JavaScript multiplication with NaN/Infinity propagation
(`Infinity * 0 = NaN`). -/
def jsMul : JSNum → JSNum → JSNum
  | nan, _ => nan
  | _, nan => nan
  | inf, inf => inf
  | inf, ninf => ninf
  | ninf, inf => ninf
  | ninf, ninf => inf
  | inf, num b => if b = 0 then nan else if 0 < b then inf else ninf
  | num a, inf => if a = 0 then nan else if 0 < a then inf else ninf
  | ninf, num b => if b = 0 then nan else if 0 < b then ninf else inf
  | num a, ninf => if a = 0 then nan else if 0 < a then ninf else inf
  | num a, num b => num (a * b)

/-- JavaScript division with NaN/Infinity propagation (`0/0 = NaN`,
`x/0 = ±Infinity` for `x ≠ 0`, `finite/Infinity = 0`). The sign of zero is
not modelled. -/
def jsDiv : JSNum → JSNum → JSNum
  | nan, _ => nan
  | _, nan => nan
  | inf, inf => nan
  | inf, ninf => nan
  | ninf, inf => nan
  | ninf, ninf => nan
  | inf, num b => if 0 ≤ b then inf else ninf
  | ninf, num b => if 0 ≤ b then ninf else inf
  | num _, inf => num 0
  | num _, ninf => num 0
  | num a, num b =>
      if b = 0 then (if a = 0 then nan else if 0 < a then inf else ninf)
      else num (a / b)

/-- `Number.isFinite`: true exactly on finite values. -/
def isFinite : JSNum → Bool
  | num _ => true
  | _ => false

end JSNum

open JSNum

/-- A completion callback argument: an opaque value with an identity,
a flag for whether it is callable (`instanceof Function`), and a flag for
whether invoking it raises an exception. -/
structure JSCallback where
  id : ℕ
  callable : Bool
  throws : Bool
deriving DecidableEq, Repr

/-- Exceptions propagating out of a controller method: a `TypeError`
raised by validation, or an exception raised by a user callback. -/
inductive JSErr where
  | typeErr (msg : String) : JSErr
  | callbackErr (id : ℕ) : JSErr
deriving DecidableEq, Repr

/-- A method's JavaScript return value: the controller itself (`this`) or
`undefined`. -/
inductive JSRet where
  | self : JSRet
  | undef : JSRet
deriving DecidableEq, Repr

/-- The fade record built by `fadeTo` (source: the object literal assigned
to `this.fade`): start/end volumes, start/end timestamps and the optional
callback (`none` models an `undefined` callback argument). -/
structure Fade where
  volumeStart : JSNum
  volumeEnd : JSNum
  timeStart : JSNum
  timeEnd : JSNum
  callback : Option JSCallback
deriving DecidableEq, Repr

/-- The controller's mutable state: the media element's `volume`
attribute, the `active` flag, the current fade record (`this.fade`), the
stored fade duration, and whether a `requestAnimationFrame` callback is
currently registered to fire. -/
structure FaderState where
  mediaVolume : JSNum
  active : Bool
  fade : Option Fade
  fadeDuration : JSNum
  scheduled : Bool
deriving DecidableEq, Repr

/-- The outcome of one synchronous method call: the state after the call,
the ids of the completion callbacks invoked during it, the exception that
propagated out of it (if any), and its return value. When `err` is some,
the method never returned and `ret` is `undef` by convention. -/
structure MethodResult where
  state : FaderState
  events : List ℕ
  err : Option JSErr
  ret : JSRet
deriving DecidableEq, Repr

/-- Source `validateVolumeLevel`: a value passes iff
`!Number.isNaN(value) && value >= 0 && value <= 1` (JS comparisons, so NaN
fails and Infinity fails the upper bound). -/
def validateVolumeLevel (v : JSNum) : Bool :=
  !v.isNaN && jsGe v (num 0) && jsLe v (num 1)

/-- The interpolated fade-domain level computed by `updateVolume` while
time remains: `progress = (now - start) / (end - start)`;
`level = progress * (endVolume - startVolume) + startVolume`. -/
def fadeLevel (f : Fade) (now : ℚ) : JSNum :=
  let progress := jsDiv (jsSub (num now) f.timeStart) (jsSub f.timeEnd f.timeStart)
  jsAdd (jsMul progress (jsSub f.volumeEnd f.volumeStart)) f.volumeStart

/-- Source `updateVolume`, as a pure step function. `sc` is
`this.volumeScaler`, `now` is `Date.now()`. If the fader is active and a
fade is present: while `now < fade.time.end` it writes the scaled
interpolated level to the media volume and re-arms the animation frame;
otherwise it writes the scaled end volume, clears the active flag, invokes
the callback if callable (an exception there aborts the method before
`this.fade = undefined` runs) and clears the fade record. -/
def updateVolume (sc : JSNum → JSNum) (s : FaderState) (now : ℚ) : MethodResult :=
  match s.active, s.fade with
  | true, some f =>
      if jsLt (num now) f.timeEnd then
        { state := { s with mediaVolume := sc (fadeLevel f now), scheduled := true },
          events := [], err := none, ret := .self }
      else
        let s1 : FaderState := { s with mediaVolume := sc f.volumeEnd, active := false }
        match f.callback with
        | some cb =>
            if cb.callable then
              if cb.throws then
                { state := s1, events := [cb.id], err := some (.callbackErr cb.id), ret := .undef }
              else
                { state := { s1 with fade := none }, events := [cb.id], err := none, ret := .self }
            else
              { state := { s1 with fade := none }, events := [], err := none, ret := .self }
        | none => { state := { s1 with fade := none }, events := [], err := none, ret := .self }
  | _, _ => { state := s, events := [], err := none, ret := .self }

/-- Source `start`: sets `this.active = true`, then runs `updateVolume`
once synchronously; returns `this`. -/
def start (sc : JSNum → JSNum) (s : FaderState) (now : ℚ) : MethodResult :=
  updateVolume sc { s with active := true } now

/-- Source `stop`: sets `this.active = false` and returns `this`. The
pending animation-frame registration, if any, is not cancelled. -/
def stop (s : FaderState) : MethodResult :=
  { state := { s with active := false }, events := [], err := none, ret := .self }

/-- Source `setFadeDuration`: stores the duration if
`!Number.isNaN(d) && d > 0`, else throws a `TypeError`. -/
def setFadeDuration (s : FaderState) (d : JSNum) : MethodResult :=
  if !d.isNaN && jsGt d (num 0) then
    { state := { s with fadeDuration := d }, events := [], err := none, ret := .self }
  else
    { state := s, events := [],
      err := some (.typeErr "Positive number expected for fade duration!"), ret := .undef }

/-- The fade record object literal built inside source `fadeTo`:
`volume.start` is `this.media.volume` read directly, `volume.end` the
target, times are `Date.now()` and `Date.now() + this.fadeDuration`. -/
def newFade (s : FaderState) (now : ℚ) (target : JSNum) (cb : Option JSCallback) : Fade :=
  { volumeStart := s.mediaVolume
    volumeEnd := target
    timeStart := num now
    timeEnd := jsAdd (num now) s.fadeDuration
    callback := cb }

/-- Source `fadeTo`: validates the target (throwing leaves the state
untouched), assigns the new fade record over any existing one, and calls
`start` (whose synchronous `updateVolume` runs with the new record);
returns `this`. -/
def fadeTo (sc : JSNum → JSNum) (s : FaderState) (now : ℚ)
    (target : JSNum) (cb : Option JSCallback) : MethodResult :=
  if validateVolumeLevel target then
    start sc { s with fade := some (newFade s now target cb) } now
  else
    { state := s, events := [],
      err := some (.typeErr "Number between 0 and 1 expected for volume!"), ret := .undef }

/-- Source `fadeIn`: the body is `this.fadeTo( 1, callback )` with no
`return` statement, so the method returns `undefined`. -/
def fadeIn (sc : JSNum → JSNum) (s : FaderState) (now : ℚ) (cb : Option JSCallback) :
    MethodResult :=
  { fadeTo sc s now (num 1) cb with ret := .undef }

/-- Source `fadeOut`: the body is `this.fadeTo( 0, callback )` with no
`return` statement, so the method returns `undefined`. -/
def fadeOut (sc : JSNum → JSNum) (s : FaderState) (now : ℚ) (cb : Option JSCallback) :
    MethodResult :=
  { fadeTo sc s now (num 0) cb with ret := .undef }

/-- The host delivering a registered `requestAnimationFrame` callback:
consumes the registration and runs `updateVolume`. A no-op if nothing is
registered. -/
def fireScheduled (sc : JSNum → JSNum) (s : FaderState) (now : ℚ) : MethodResult :=
  if s.scheduled then updateVolume sc { s with scheduled := false } now
  else { state := s, events := [], err := none, ret := .self }

/-- The state after the constructor's default path (no options): media
volume left as found, default 500 ms fade duration, inactive, no fade, no
registration. -/
def initState (mediaVol : JSNum) : FaderState :=
  { mediaVolume := mediaVol, active := false, fade := none,
    fadeDuration := num 500, scheduled := false }

/-- Source `exponentialScaler` (the default `options.volumeScaler`):
`f(0) = 0`, and for `l ≠ 0`, `f(l) = 10 ^ ((l - 1) * 3)` (30 dB dynamic
range). Floating point is idealised as the real exponential. -/
noncomputable def exponentialScaler (logarithmic : ℝ) : ℝ :=
  if logarithmic = 0 then 0 else (10 : ℝ) ^ ((logarithmic - 1) * 3)

/-- The identity scaler: the simplest caller-supplied
`options.volumeScaler`, used to instantiate theorems at concrete inputs. -/
def linearScaler : JSNum → JSNum := fun v => v

/-- A value lying outside the unit interval `[0,1]` of valid volume
levels; NaN and the infinities count as outside. -/
def outsideUnitInterval : JSNum → Prop
  | JSNum.num q => q < 0 ∨ 1 < q
  | _ => True

/-- A caller-visible operation on the controller, together with the wall
clock time at which it happens: the public methods, plus the host
delivering a registered animation-frame callback. -/
inductive Op where
  | opStart (now : ℚ) : Op
  | opStop : Op
  | opFire (now : ℚ) : Op
  | opFadeTo (now : ℚ) (target : JSNum) (cb : Option JSCallback) : Op
  | opSetDur (d : JSNum) : Op

/-- Run one operation, keeping the resulting state and the callback
invocations it produced (exceptions are caught by the caller). -/
def runOp (sc : JSNum → JSNum) (s : FaderState) : Op → FaderState × List ℕ
  | Op.opStart now => ((start sc s now).state, (start sc s now).events)
  | Op.opStop => ((stop s).state, (stop s).events)
  | Op.opFire now => ((fireScheduled sc s now).state, (fireScheduled sc s now).events)
  | Op.opFadeTo now t cb => ((fadeTo sc s now t cb).state, (fadeTo sc s now t cb).events)
  | Op.opSetDur d => ((setFadeDuration s d).state, (setFadeDuration s d).events)

/-- Run a sequence of operations, accumulating callback invocations. -/
def run (sc : JSNum → JSNum) (s : FaderState) : List Op → FaderState × List ℕ
  | [] => (s, [])
  | op :: ops =>
      ((run sc (runOp sc s op).1 ops).1,
        (runOp sc s op).2 ++ (run sc (runOp sc s op).1 ops).2)

/-- The id of the callback registered on the current fade record, if any. -/
def fadeCbId : Option Fade → Option ℕ
  | some f => Option.map JSCallback.id f.callback
  | none => none

/-- The id of an optional callback argument. -/
def cbId : Option JSCallback → Option ℕ := Option.map JSCallback.id

/-- The id of the callback an operation supplies (only `fadeTo` carries
one). -/
def opCbId : Op → Option ℕ
  | Op.opFadeTo _ _ cb => cbId cb
  | _ => none

namespace JSNum

@[simp] theorem isNaN_num (q : ℚ) : (num q).isNaN = false := rfl

@[simp] theorem jsLt_num_num (a b : ℚ) : jsLt (num a) (num b) = decide (a < b) := rfl

@[simp] theorem jsLe_num_num (a b : ℚ) : jsLe (num a) (num b) = decide (a ≤ b) := rfl

@[simp] theorem jsLt_num_inf (a : ℚ) : jsLt (num a) inf = true := rfl

@[simp] theorem jsNeg_num (a : ℚ) : jsNeg (num a) = num (-a) := rfl

@[simp] theorem jsAdd_num_num (a b : ℚ) : jsAdd (num a) (num b) = num (a + b) := rfl

@[simp] theorem jsSub_num_num (a b : ℚ) : jsSub (num a) (num b) = num (a - b) := by
  simp [jsSub, sub_eq_add_neg]

@[simp] theorem jsSub_inf_num (a : ℚ) : jsSub inf (num a) = inf := rfl

@[simp] theorem jsMul_num_num (a b : ℚ) : jsMul (num a) (num b) = num (a * b) := rfl

theorem jsDiv_num_num (a b : ℚ) (hb : b ≠ 0) :
    jsDiv (num a) (num b) = num (a / b) := by
  simp [jsDiv, hb]

@[simp] theorem jsDiv_num_inf (a : ℚ) : jsDiv (num a) inf = num 0 := rfl

end JSNum

/-- A value outside the unit interval fails `validateVolumeLevel`. -/
theorem validateVolumeLevel_eq_false_of_outside (v : JSNum)
    (h : outsideUnitInterval v) : validateVolumeLevel v = false := by
  cases v with
  | nan => rfl
  | inf => rfl
  | ninf => rfl
  | num q =>
      rcases h with h | h <;>
        simp [validateVolumeLevel, jsGe, jsLe, JSNum.isNaN] <;> intro h' <;> linarith

/-- **C7.** For every `targetVolume` outside `[0,1]` (including NaN and
the infinities), `fadeTo` raises its `TypeError` synchronously and
returns with the controller's entire prior state unchanged: the current
fade record, the active flag and the media volume are exactly as before
the call, no callback fires. -/
theorem fadeTo_invalid_raises_and_preserves_state
    (sc : JSNum → JSNum) (s : FaderState) (now : ℚ) (t : JSNum)
    (cb : Option JSCallback) (h : outsideUnitInterval t) :
    fadeTo sc s now t cb =
      { state := s, events := [],
        err := some (JSErr.typeErr "Number between 0 and 1 expected for volume!"),
        ret := JSRet.undef } := by
  simp [fadeTo, validateVolumeLevel_eq_false_of_outside t h]

/-- Witness for C7: `fadeTo(NaN)` on a concrete idle controller throws
and leaves the state untouched. -/
theorem fadeTo_invalid_raises_and_preserves_state_witness :
    fadeTo linearScaler (initState (num (1/2))) 0 JSNum.nan none =
      { state := initState (num (1/2)), events := [],
        err := some (JSErr.typeErr "Number between 0 and 1 expected for volume!"),
        ret := JSRet.undef } :=
  fadeTo_invalid_raises_and_preserves_state linearScaler (initState (num (1/2))) 0
    JSNum.nan none trivial

/-- **C1.** Once the end time has been reached (`now < time.end` is
false) and the fader is active, the `updateVolume` step writes exactly
`scaleFn(endVolume)` (not an interpolated value) to the media volume,
clears the active flag, clears the fade record, and invokes the record's
callback exactly once if it is present and callable (and not at all
otherwise). The hypothesis that the callback returns normally isolates
this claim from the exceptional path treated with claim C2. -/
theorem updateVolume_completes_fade
    (sc : JSNum → JSNum) (s : FaderState) (f : Fade) (now : ℚ)
    (hact : s.active = true) (hf : s.fade = some f)
    (hend : jsLt (num now) f.timeEnd = false)
    (hnothrow : f.callback.all (fun cb => !cb.throws) = true) :
    (updateVolume sc s now).state.mediaVolume = sc f.volumeEnd ∧
    (updateVolume sc s now).state.active = false ∧
    (updateVolume sc s now).state.fade = none ∧
    (∀ cb, f.callback = some cb → cb.callable = true →
        (updateVolume sc s now).events = [cb.id]) ∧
    (∀ cb, f.callback = some cb → cb.callable = false →
        (updateVolume sc s now).events = []) ∧
    (f.callback = none → (updateVolume sc s now).events = []) := by
  cases hcb : f.callback with
  | none => simp [updateVolume, hact, hf, hend, hcb]
  | some cb =>
      rw [hcb] at hnothrow
      simp only [Option.all_some, Bool.not_eq_true'] at hnothrow
      cases hc : cb.callable <;>
        simp [updateVolume, hact, hf, hend, hcb, hnothrow, hc]

/-- Witness for C1: a fade from 0 to 1 over `[0,100]` with a callable,
normally returning callback of id 3, stepped at `now = 150`. -/
theorem updateVolume_completes_fade_witness :
    (updateVolume linearScaler
      ⟨num 0, true, some ⟨num 0, num 1, num 0, num 100, some ⟨3, true, false⟩⟩,
        num 500, false⟩ 150).state.mediaVolume = linearScaler (num 1) ∧
    (updateVolume linearScaler
      ⟨num 0, true, some ⟨num 0, num 1, num 0, num 100, some ⟨3, true, false⟩⟩,
        num 500, false⟩ 150).state.active = false ∧
    (updateVolume linearScaler
      ⟨num 0, true, some ⟨num 0, num 1, num 0, num 100, some ⟨3, true, false⟩⟩,
        num 500, false⟩ 150).state.fade = none ∧
    (updateVolume linearScaler
      ⟨num 0, true, some ⟨num 0, num 1, num 0, num 100, some ⟨3, true, false⟩⟩,
        num 500, false⟩ 150).events = [3] := by
  have h := updateVolume_completes_fade linearScaler
    ⟨num 0, true, some ⟨num 0, num 1, num 0, num 100, some ⟨3, true, false⟩⟩,
      num 500, false⟩
    ⟨num 0, num 1, num 0, num 100, some ⟨3, true, false⟩⟩ 150
    rfl rfl (by decide) (by decide)
  exact ⟨h.1, h.2.1, h.2.2.1, h.2.2.2.1 ⟨3, true, false⟩ rfl rfl⟩

/-- **C2** (code bug). At the completing step of a fade whose callback
raises, the source sets the media volume and clears the active flag
(those precede the call at line 252), but the exception aborts
`updateVolume` before line 255 `this.fade = undefined` runs: contrary to
the spec's unconditional-finalization requirement, the completed fade
record is left in place. Evaluated here at a concrete failing input. -/
theorem updateVolume_throwing_callback_keeps_record :
    (updateVolume linearScaler
      ⟨num 0, true, some ⟨num 0, num 1, num 0, num 100, some ⟨5, true, true⟩⟩,
        num 500, false⟩ 100).err = some (JSErr.callbackErr 5) ∧
    (updateVolume linearScaler
      ⟨num 0, true, some ⟨num 0, num 1, num 0, num 100, some ⟨5, true, true⟩⟩,
        num 500, false⟩ 100).state.active = false ∧
    (updateVolume linearScaler
      ⟨num 0, true, some ⟨num 0, num 1, num 0, num 100, some ⟨5, true, true⟩⟩,
        num 500, false⟩ 100).state.fade =
      some ⟨num 0, num 1, num 0, num 100, some ⟨5, true, true⟩⟩ := by
  decide

/-- **C10.** A successful `fadeTo` builds its record with
`volume.start = this.media.volume` read directly — evidenced by the start
volume being the raw stored media volume for *every* scaler `sc`, with no
inverse scaling applied — and this record is still in place after the
synchronous first update step run by the nested `start()` (the stored
fade duration being valid, as the setter and constructor enforce). -/
theorem fadeTo_start_volume_is_raw_media_volume
    (sc : JSNum → JSNum) (s : FaderState) (now : ℚ) (t : JSNum)
    (cb : Option JSCallback)
    (hvalid : validateVolumeLevel t = true)
    (hdur : (!s.fadeDuration.isNaN && jsGt s.fadeDuration (num 0)) = true) :
    (fadeTo sc s now t cb).state.fade =
      some { volumeStart := s.mediaVolume, volumeEnd := t,
             timeStart := num now, timeEnd := jsAdd (num now) s.fadeDuration,
             callback := cb } := by
  have hlt : jsLt (num now) (jsAdd (num now) s.fadeDuration) = true := by
    cases hd : s.fadeDuration with
    | nan => rw [hd] at hdur; simp [JSNum.isNaN] at hdur
    | inf => simp [jsAdd, jsLt]
    | ninf => rw [hd] at hdur; simp [jsGt, jsLt] at hdur
    | num q =>
        rw [hd] at hdur
        simp only [JSNum.isNaN, Bool.not_false, Bool.true_and, jsGt, jsLt_num_num,
          decide_eq_true_eq] at hdur
        simp only [jsAdd_num_num, jsLt_num_num, decide_eq_true_eq]
        linarith
  simp [fadeTo, hvalid, start, updateVolume, newFade, hlt]

/-- Witness for C10: `fadeTo(1)` on an idle controller whose media volume
is `1/2` stores `1/2` as the record's start volume. -/
theorem fadeTo_start_volume_is_raw_media_volume_witness :
    (fadeTo linearScaler (initState (num (1/2))) 0 (num 1) none).state.fade =
      some { volumeStart := num (1/2), volumeEnd := num 1,
             timeStart := num 0, timeEnd := jsAdd (num 0) (num 500),
             callback := none } :=
  fadeTo_start_volume_is_raw_media_volume linearScaler (initState (num (1/2))) 0
    (num 1) none (by decide) (by decide)

/-- `updateVolume` returns `this` exactly when no exception propagated. -/
theorem updateVolume_fluent (sc : JSNum → JSNum) (s : FaderState) (now : ℚ) :
    (updateVolume sc s now).ret =
      (if (updateVolume sc s now).err = none then JSRet.self else JSRet.undef) := by
  rcases s with ⟨mv, act, fa, dur, sch⟩
  rcases act with _ | _
  · rfl
  · rcases fa with _ | ⟨vs, ve, ts, te, cb0⟩
    · rfl
    · by_cases h : jsLt (num now) te = true
      · simp [updateVolume, h]
      · rcases cb0 with _ | ⟨i, c, th⟩
        · simp [updateVolume, h]
        · rcases c with _ | _ <;> rcases th with _ | _ <;>
            simp [updateVolume, h]

/-- `fadeTo` returns `this` exactly when no exception propagated. -/
theorem fadeTo_fluent (sc : JSNum → JSNum) (s : FaderState) (now : ℚ)
    (t : JSNum) (cb : Option JSCallback) :
    (fadeTo sc s now t cb).ret =
      (if (fadeTo sc s now t cb).err = none then JSRet.self else JSRet.undef) := by
  by_cases h : validateVolumeLevel t = true
  · simp only [fadeTo, h, if_true, start]
    exact updateVolume_fluent sc _ now
  · simp [fadeTo, h]

/-- **C9** (counterexample). `fadeIn` and `fadeOut` have no `return`
statement in the source, so they return `undefined`, not the controller
instance: the fluency part of the claim fails on a concrete call. -/
theorem fadeIn_fadeOut_return_undefined :
    (fadeIn linearScaler (initState (num 0)) 0 none).ret = JSRet.undef ∧
    (fadeOut linearScaler (initState (num 0)) 0 none).ret = JSRet.undef ∧
    JSRet.undef ≠ JSRet.self := by decide

/-- **C9** (amended). `fadeIn(cb)` / `fadeOut(cb)` have exactly the state
effects, callback events and exceptions of `fadeTo(1, cb)` /
`fadeTo(0, cb)`, but return `undefined`; `start`, `stop`,
`setFadeDuration` and `fadeTo` return the controller itself whenever they
return at all. -/
theorem fadeIn_fadeOut_delegate (sc : JSNum → JSNum) (s : FaderState)
    (now : ℚ) (cb : Option JSCallback) (d t : JSNum) :
    (fadeIn sc s now cb).state = (fadeTo sc s now (num 1) cb).state ∧
    (fadeIn sc s now cb).events = (fadeTo sc s now (num 1) cb).events ∧
    (fadeIn sc s now cb).err = (fadeTo sc s now (num 1) cb).err ∧
    (fadeIn sc s now cb).ret = JSRet.undef ∧
    (fadeOut sc s now cb).state = (fadeTo sc s now (num 0) cb).state ∧
    (fadeOut sc s now cb).events = (fadeTo sc s now (num 0) cb).events ∧
    (fadeOut sc s now cb).err = (fadeTo sc s now (num 0) cb).err ∧
    (fadeOut sc s now cb).ret = JSRet.undef ∧
    (stop s).ret = JSRet.self ∧
    (setFadeDuration s d).ret =
      (if (setFadeDuration s d).err = none then JSRet.self else JSRet.undef) ∧
    (start sc s now).ret =
      (if (start sc s now).err = none then JSRet.self else JSRet.undef) ∧
    (fadeTo sc s now t cb).ret =
      (if (fadeTo sc s now t cb).err = none then JSRet.self else JSRet.undef) := by
  refine ⟨rfl, rfl, rfl, rfl, rfl, rfl, rfl, rfl, rfl, ?_, ?_, ?_⟩
  · by_cases h : (!d.isNaN && jsGt d (num 0)) = true <;> simp [setFadeDuration, h]
  · exact updateVolume_fluent sc _ now
  · exact fadeTo_fluent sc s now t cb

/-- **C8** (counterexample). `setFadeDuration(Infinity)` succeeds — the
source only checks `!Number.isNaN(d) && d > 0` — and stores the
non-finite duration, contrary to the claim that success requires a
finite number. -/
theorem setFadeDuration_accepts_infinite_duration :
    (setFadeDuration (initState (num 1)) JSNum.inf).err = none ∧
    (setFadeDuration (initState (num 1)) JSNum.inf).state.fadeDuration = JSNum.inf ∧
    JSNum.isFinite JSNum.inf = false := by decide

/-- **C8** (amended). `setFadeDuration(d)` succeeds exactly when `d` is
not NaN and `d > 0` under JS comparison — that is, when `d` is a positive
finite number **or `+Infinity`** — storing `d` for subsequent fades and
changing nothing else (in particular leaving any in-flight fade record
untouched); otherwise it raises and leaves the state unchanged. -/
theorem setFadeDuration_spec (s : FaderState) (d : JSNum) :
    ((setFadeDuration s d).err = none ↔
      d = JSNum.inf ∨ ∃ q : ℚ, d = num q ∧ 0 < q) ∧
    ((setFadeDuration s d).err = none →
      (setFadeDuration s d).state = { s with fadeDuration := d }) ∧
    ((setFadeDuration s d).err ≠ none → (setFadeDuration s d).state = s) := by
  cases d with
  | nan =>
      refine ⟨?_, ?_, ?_⟩ <;> simp [setFadeDuration, JSNum.isNaN]
  | inf =>
      refine ⟨?_, ?_, ?_⟩ <;> simp [setFadeDuration, JSNum.isNaN, jsGt, jsLt]
  | ninf =>
      refine ⟨?_, ?_, ?_⟩ <;> simp [setFadeDuration, JSNum.isNaN, jsGt, jsLt]
  | num q =>
      by_cases h : 0 < q
      · refine ⟨?_, ?_, ?_⟩ <;>
          simp [setFadeDuration, JSNum.isNaN, jsGt, jsLt, h]
      · refine ⟨?_, ?_, ?_⟩ <;>
          simp [setFadeDuration, JSNum.isNaN, jsGt, jsLt, h]

/-- Witness for C8 (amended): a 250 ms duration is accepted and stored on
a concrete state. -/
theorem setFadeDuration_spec_witness :
    (setFadeDuration (initState (num 1)) (num 250)).err = none ∧
    (setFadeDuration (initState (num 1)) (num 250)).state =
      { initState (num 1) with fadeDuration := num 250 } := by
  have w := setFadeDuration_spec (initState (num 1)) (num 250)
  have h : (setFadeDuration (initState (num 1)) (num 250)).err = none :=
    w.1.mpr (Or.inr ⟨250, rfl, by norm_num⟩)
  exact ⟨h, w.2.1 h⟩

/-- **C6** (counterexample). After `start()` on a controller with no
current fade, the active flag is true while no animation-frame callback
is registered: `isActive` is not equivalent to "the scheduling loop is
registered to fire again". -/
theorem start_without_fade_active_unscheduled :
    (start linearScaler (initState (num 1)) 0).state.active = true ∧
    (start linearScaler (initState (num 1)) 0).state.scheduled = false := by
  decide

/-- **C6** (amended). The active flag and the pending registration are
decoupled exactly as the source behaves: `start()` with no current fade
sets the flag but registers nothing (a degenerate active-no-fade state);
`stop()` clears the flag but cannot deregister a pending animation-frame
callback — delivering that callback while inactive merely consumes the
registration, changing nothing else and invoking no callback. -/
theorem active_flag_vs_registration (sc : JSNum → JSNum) (s : FaderState)
    (now : ℚ) :
    (s.fade = none → (start sc s now).state = { s with active := true }) ∧
    (stop s).state.scheduled = s.scheduled ∧
    (stop s).state.active = false ∧
    (s.active = false →
      (fireScheduled sc s now).state = { s with scheduled := false } ∧
      (fireScheduled sc s now).events = []) := by
  rcases s with ⟨mv, act, fa, dur, sch⟩
  refine ⟨?_, rfl, rfl, ?_⟩
  · intro h
    dsimp only at h
    subst h
    rfl
  · intro h
    dsimp only at h
    subst h
    cases sch <;> exact ⟨rfl, rfl⟩

/-- Witness for C6 (amended) on a concrete inactive state with a pending
registration and no fade. -/
theorem active_flag_vs_registration_witness :
    (start linearScaler ⟨num 1, false, none, num 500, true⟩ 7).state =
      ⟨num 1, true, none, num 500, true⟩ ∧
    (stop ⟨num 1, false, none, num 500, true⟩).state.scheduled = true ∧
    (stop ⟨num 1, false, none, num 500, true⟩).state.active = false ∧
    (fireScheduled linearScaler ⟨num 1, false, none, num 500, true⟩ 7).state =
      ⟨num 1, false, none, num 500, false⟩ ∧
    (fireScheduled linearScaler ⟨num 1, false, none, num 500, true⟩ 7).events = [] := by
  have w := active_flag_vs_registration linearScaler
    ⟨num 1, false, none, num 500, true⟩ 7
  exact ⟨w.1 rfl, w.2.1, w.2.2.1, (w.2.2.2 rfl).1, (w.2.2.2 rfl).2⟩

/-- The default exponential scaler maps the unit interval into itself:
`0 ↦ 0` exactly, and `l ↦ 10^((l-1)*3)` lies in `(0.001, 1]` for
`l ∈ (0,1]`. -/
theorem exponentialScaler_mem_Icc (l : ℝ) (h0 : 0 ≤ l) (h1 : l ≤ 1) :
    exponentialScaler l ∈ Set.Icc (0 : ℝ) 1 := by
  rw [Set.mem_Icc]
  unfold exponentialScaler
  split
  · exact ⟨le_rfl, zero_le_one⟩
  · exact ⟨le_of_lt (Real.rpow_pos_of_pos (by norm_num) _),
      Real.rpow_le_one_of_one_le_of_nonpos (by norm_num) (by nlinarith)⟩

/-- On a record with finite fields and a genuine time span, `fadeLevel`
computes the textbook linear interpolation. -/
theorem fadeLevel_eq (f : Fade) (now a b t0 t1 : ℚ)
    (hvs : f.volumeStart = num a) (hve : f.volumeEnd = num b)
    (hts : f.timeStart = num t0) (hte : f.timeEnd = num t1)
    (hlt : t0 < t1) :
    fadeLevel f now = num ((now - t0) / (t1 - t0) * (b - a) + a) := by
  have hne : t1 - t0 ≠ 0 := sub_ne_zero.mpr (ne_of_gt hlt)
  simp [fadeLevel, hvs, hve, hts, hte, JSNum.jsDiv_num_num _ _ hne]

/-- The interpolated level stays within the unit interval while the
timestamp stays within the fade's time span. -/
theorem interpolation_mem_unit (a b t0 t1 now : ℚ)
    (ha0 : 0 ≤ a) (ha1 : a ≤ 1) (hb0 : 0 ≤ b) (hb1 : b ≤ 1)
    (hlt : t0 < t1) (h0 : t0 ≤ now) (h1 : now ≤ t1) :
    0 ≤ (now - t0) / (t1 - t0) * (b - a) + a ∧
      (now - t0) / (t1 - t0) * (b - a) + a ≤ 1 := by
  set p : ℚ := (now - t0) / (t1 - t0) with hp
  have hp0 : 0 ≤ p := div_nonneg (by linarith) (by linarith)
  have hp1 : p ≤ 1 := (div_le_one (by linarith)).mpr (by linarith)
  constructor
  · nlinarith [mul_nonneg hp0 hb0, mul_nonneg (sub_nonneg.mpr hp1) ha0]
  · nlinarith [mul_le_mul_of_nonneg_left hb1 hp0,
      mul_le_mul_of_nonneg_left ha1 (sub_nonneg.mpr hp1)]

/-- **C4.** For an update step on a live fade record (volumes in `[0,1]`,
`startTime < endTime`, step taken at or after the start time, media
volume in `[0,1]`): while time remains the step writes the scaled
interpolated level, that level lies in `[0,1]`, and the default
exponential scaler (floats idealised as reals) maps it into `[0,1]`; at
or past the end time the step writes the scaled end volume, which the
default scaler likewise maps into `[0,1]`. -/
theorem updateVolume_written_volume_in_range
    (sc : JSNum → JSNum) (s : FaderState) (f : Fade)
    (now a b t0 t1 m : ℚ)
    (hact : s.active = true) (hf : s.fade = some f)
    (hm : s.mediaVolume = num m) (hm0 : 0 ≤ m) (hm1 : m ≤ 1)
    (hvs : f.volumeStart = num a) (hve : f.volumeEnd = num b)
    (ha0 : 0 ≤ a) (ha1 : a ≤ 1) (hb0 : 0 ≤ b) (hb1 : b ≤ 1)
    (hts : f.timeStart = num t0) (hte : f.timeEnd = num t1)
    (hlt : t0 < t1) (hnow : t0 ≤ now) :
    (now < t1 →
      (updateVolume sc s now).state.mediaVolume = sc (fadeLevel f now) ∧
      fadeLevel f now = num ((now - t0) / (t1 - t0) * (b - a) + a) ∧
      0 ≤ (now - t0) / (t1 - t0) * (b - a) + a ∧
      (now - t0) / (t1 - t0) * (b - a) + a ≤ 1 ∧
      exponentialScaler (((now - t0) / (t1 - t0) * (b - a) + a : ℚ) : ℝ) ∈
        Set.Icc (0 : ℝ) 1) ∧
    (t1 ≤ now →
      (updateVolume sc s now).state.mediaVolume = sc (num b) ∧
      exponentialScaler ((b : ℚ) : ℝ) ∈ Set.Icc (0 : ℝ) 1) := by
  constructor
  · intro h
    have hcond : jsLt (num now) f.timeEnd = true := by
      rw [hte]; simp [h]
    obtain ⟨hl0, hl1⟩ :=
      interpolation_mem_unit a b t0 t1 now ha0 ha1 hb0 hb1 hlt hnow (le_of_lt h)
    refine ⟨?_, fadeLevel_eq f now a b t0 t1 hvs hve hts hte hlt, hl0, hl1, ?_⟩
    · simp [updateVolume, hact, hf, hcond]
    · exact exponentialScaler_mem_Icc _ (by exact_mod_cast hl0) (by exact_mod_cast hl1)
  · intro h
    have hcond : jsLt (num now) f.timeEnd = false := by
      rw [hte]
      simp only [jsLt_num_num, decide_eq_false_iff_not, not_lt]
      exact h
    constructor
    · rw [← hve]
      cases hcb : f.callback with
      | none => simp [updateVolume, hact, hf, hcond, hcb]
      | some cb =>
          cases hc : cb.callable <;> cases hth : cb.throws <;>
            simp [updateVolume, hact, hf, hcond, hcb, hc, hth]
    · exact exponentialScaler_mem_Icc _ (by exact_mod_cast hb0) (by exact_mod_cast hb1)

/-- Witness for C4: a live fade from 0 to 1 over `[0, 1000]`, stepped at
`now = 500`, with media volume `1/2`. -/
theorem updateVolume_written_volume_in_range_witness :
    (updateVolume linearScaler
      ⟨num (1/2), true, some ⟨num 0, num 1, num 0, num 1000, none⟩, num 500, false⟩
      500).state.mediaVolume =
        linearScaler (fadeLevel ⟨num 0, num 1, num 0, num 1000, none⟩ 500) ∧
    fadeLevel ⟨num 0, num 1, num 0, num 1000, none⟩ 500 =
      num ((500 - 0) / (1000 - 0) * (1 - 0) + 0) ∧
    0 ≤ ((500 : ℚ) - 0) / (1000 - 0) * (1 - 0) + 0 ∧
    ((500 : ℚ) - 0) / (1000 - 0) * (1 - 0) + 0 ≤ 1 ∧
    exponentialScaler ((((500 : ℚ) - 0) / (1000 - 0) * (1 - 0) + 0 : ℚ) : ℝ) ∈
      Set.Icc (0 : ℝ) 1 :=
  (updateVolume_written_volume_in_range linearScaler
    ⟨num (1/2), true, some ⟨num 0, num 1, num 0, num 1000, none⟩, num 500, false⟩
    ⟨num 0, num 1, num 0, num 1000, none⟩ 500 0 1 0 1000 (1/2)
    rfl rfl rfl (by norm_num) (by norm_num) rfl rfl (by norm_num) (by norm_num)
    (by norm_num) (by norm_num) rfl rfl (by norm_num) (by norm_num)).1
    (by norm_num)

/-- **C5.** For a live fade record and two step timestamps
`n1 ≤ n2` within the fade's span, the pre-scale interpolated levels are
non-decreasing when `startVolume < endVolume` and non-increasing when
`startVolume > endVolume`. -/
theorem fadeLevel_monotone (f : Fade) (a b t0 t1 n1 n2 : ℚ)
    (hvs : f.volumeStart = num a) (hve : f.volumeEnd = num b)
    (hts : f.timeStart = num t0) (hte : f.timeEnd = num t1)
    (hlt : t0 < t1) (h1 : t0 ≤ n1) (h12 : n1 ≤ n2) (h2 : n2 ≤ t1) :
    fadeLevel f n1 = num ((n1 - t0) / (t1 - t0) * (b - a) + a) ∧
    fadeLevel f n2 = num ((n2 - t0) / (t1 - t0) * (b - a) + a) ∧
    (a < b →
      (n1 - t0) / (t1 - t0) * (b - a) + a ≤ (n2 - t0) / (t1 - t0) * (b - a) + a) ∧
    (b < a →
      (n2 - t0) / (t1 - t0) * (b - a) + a ≤ (n1 - t0) / (t1 - t0) * (b - a) + a) := by
  have key : (n1 - t0) / (t1 - t0) ≤ (n2 - t0) / (t1 - t0) :=
    (div_le_div_right (by linarith)).mpr (by linarith)
  refine ⟨fadeLevel_eq f n1 a b t0 t1 hvs hve hts hte hlt,
    fadeLevel_eq f n2 a b t0 t1 hvs hve hts hte hlt, ?_, ?_⟩
  · intro hab
    have := mul_le_mul_of_nonneg_right key (by linarith : (0 : ℚ) ≤ b - a)
    linarith
  · intro hba
    have := mul_le_mul_of_nonpos_right key (by linarith : b - a ≤ (0 : ℚ))
    linarith

/-- Witness for C5: a fade from 0 to 1 over `[0, 1000]` sampled at
`n1 = 200`, `n2 = 700`. -/
theorem fadeLevel_monotone_witness :
    fadeLevel ⟨num 0, num 1, num 0, num 1000, none⟩ 200 =
      num ((200 - 0) / (1000 - 0) * (1 - 0) + 0) ∧
    fadeLevel ⟨num 0, num 1, num 0, num 1000, none⟩ 700 =
      num ((700 - 0) / (1000 - 0) * (1 - 0) + 0) ∧
    ((200 : ℚ) - 0) / (1000 - 0) * (1 - 0) + 0 ≤
      ((700 : ℚ) - 0) / (1000 - 0) * (1 - 0) + 0 := by
  have w := fadeLevel_monotone ⟨num 0, num 1, num 0, num 1000, none⟩ 0 1 0 1000 200 700
    rfl rfl rfl rfl (by norm_num) (by norm_num) (by norm_num) (by norm_num)
  exact ⟨w.1, w.2.1, w.2.2.1 (by norm_num)⟩

/-- Every callback id an `updateVolume` step fires is the id registered
on the current fade record. -/
theorem updateVolume_events_from_fade (sc : JSNum → JSNum) (s : FaderState)
    (now : ℚ) (i : ℕ) (h : i ∈ (updateVolume sc s now).events) :
    fadeCbId s.fade = some i := by
  rcases s with ⟨mv, act, fa, dur, sch⟩
  rcases act with _ | _
  · simp [updateVolume] at h
  · rcases fa with _ | ⟨vs, ve, ts, te, cb0⟩
    · simp [updateVolume] at h
    · by_cases hlt : jsLt (num now) te = true
      · simp [updateVolume, hlt] at h
      · rcases cb0 with _ | ⟨j, c, th⟩
        · simp [updateVolume, hlt] at h
        · rcases c with _ | _
          · simp [updateVolume, hlt] at h
          · rcases th with _ | _ <;>
              · simp [updateVolume, hlt] at h
                simp [fadeCbId, h]

/-- An `updateVolume` step either keeps the current fade record or clears
it; it never installs a different one. -/
theorem updateVolume_fade_preserved_or_cleared (sc : JSNum → JSNum)
    (s : FaderState) (now : ℚ) :
    (updateVolume sc s now).state.fade = s.fade ∨
      (updateVolume sc s now).state.fade = none := by
  rcases s with ⟨mv, act, fa, dur, sch⟩
  rcases act with _ | _
  · exact Or.inl rfl
  · rcases fa with _ | ⟨vs, ve, ts, te, cb0⟩
    · exact Or.inl rfl
    · by_cases hlt : jsLt (num now) te = true
      · simp [updateVolume, hlt]
      · rcases cb0 with _ | ⟨j, c, th⟩
        · simp [updateVolume, hlt]
        · rcases c with _ | _
          · simp [updateVolume, hlt]
          · rcases th with _ | _ <;> simp [updateVolume, hlt]

/-- Every callback id an operation fires was registered either on the
fade record current when the operation ran, or by the operation itself. -/
theorem runOp_events_from (sc : JSNum → JSNum) (s : FaderState) (op : Op)
    (i : ℕ) (h : i ∈ (runOp sc s op).2) :
    fadeCbId s.fade = some i ∨ opCbId op = some i := by
  cases op with
  | opStart now =>
      exact Or.inl (updateVolume_events_from_fade sc { s with active := true } now i h)
  | opStop => simp [runOp, stop] at h
  | opFire now =>
      by_cases hs : s.scheduled = true
      · refine Or.inl ?_
        have := updateVolume_events_from_fade sc { s with scheduled := false } now i
        simp only [runOp, fireScheduled, hs, if_true] at h
        exact this h
      · simp [runOp, fireScheduled, hs] at h
  | opFadeTo now t cb =>
      by_cases hv : validateVolumeLevel t = true
      · simp only [runOp, fadeTo, hv, if_true] at h
        have := updateVolume_events_from_fade sc
          { s with fade := some (newFade s now t cb), active := true } now i
        simp only [start] at h
        have h2 := this h
        simp only [fadeCbId, newFade] at h2
        exact Or.inr h2
      · simp [runOp, fadeTo, hv] at h
  | opSetDur d =>
      by_cases hd : (!d.isNaN && jsGt d (num 0)) = true <;>
        simp [runOp, setFadeDuration, hd] at h

/-- After an operation, the id registered on the current fade record is
either the one registered before or the one the operation supplied. -/
theorem runOp_fadeCbId_from (sc : JSNum → JSNum) (s : FaderState) (op : Op)
    (i : ℕ) (h : fadeCbId (runOp sc s op).1.fade = some i) :
    fadeCbId s.fade = some i ∨ opCbId op = some i := by
  cases op with
  | opStart now =>
      rcases updateVolume_fade_preserved_or_cleared sc
        { s with active := true } now with hk | hk
      · left; rw [show (runOp sc s (Op.opStart now)).1.fade = s.fade from hk] at h; exact h
      · rw [show (runOp sc s (Op.opStart now)).1.fade = none from hk] at h
        simp [fadeCbId] at h
  | opStop => exact Or.inl h
  | opFire now =>
      by_cases hs : s.scheduled = true
      · rcases updateVolume_fade_preserved_or_cleared sc
          { s with scheduled := false } now with hk | hk
        · left
          simp only [runOp, fireScheduled, hs, if_true] at h
          rw [hk] at h; exact h
        · simp only [runOp, fireScheduled, hs, if_true] at h
          rw [hk] at h; simp [fadeCbId] at h
      · simp only [runOp, fireScheduled, hs, if_false, Bool.false_eq_true] at h
        exact Or.inl h
  | opFadeTo now t cb =>
      by_cases hv : validateVolumeLevel t = true
      · simp only [runOp, fadeTo, hv, if_true, start] at h
        rcases updateVolume_fade_preserved_or_cleared sc
          { s with fade := some (newFade s now t cb), active := true } now with hk | hk
        · rw [hk] at h
          simp only [fadeCbId, newFade] at h
          exact Or.inr h
        · rw [hk] at h; simp [fadeCbId] at h
      · simp only [runOp, fadeTo, hv, if_false, Bool.false_eq_true] at h
        exact Or.inl h
  | opSetDur d =>
      by_cases hd : (!d.isNaN && jsGt d (num 0)) = true <;>
        · left
          simpa [runOp, setFadeDuration, hd] using h

/-- If id `i` is not registered on the current fade record and no
subsequent operation supplies a callback with id `i`, then `i` never
fires during the run. -/
theorem run_never_fires_unregistered (sc : JSNum → JSNum) (i : ℕ) :
    ∀ (ops : List Op) (s : FaderState),
      fadeCbId s.fade ≠ some i →
      (∀ op ∈ ops, opCbId op ≠ some i) →
      i ∉ (run sc s ops).2 := by
  intro ops
  induction ops with
  | nil => intro s h1 h2; simp [run]
  | cons op rest ih =>
      intro s h1 h2 hmem
      simp only [run, List.mem_append] at hmem
      rcases hmem with hA | hB
      · rcases runOp_events_from sc s op i hA with hc | hc
        · exact h1 hc
        · exact h2 op (List.mem_cons_self op rest) hc
      · refine ih (runOp sc s op).1 ?_ ?_ hB
        · intro hc
          rcases runOp_fadeCbId_from sc s op i hc with hc2 | hc2
          · exact h1 hc2
          · exact h2 op (List.mem_cons_self op rest) hc2
        · intro op2 hop2
          exact h2 op2 (List.mem_cons_of_mem op hop2)

/-- **C3.** A fade record superseded by a later successful `fadeTo` never
has its callback invoked afterwards: the superseding call replaces the
record synchronously and fires nothing of the old record, and — as long
as later operations never re-supply the same callback identity — the old
callback id never appears among the fired events of any subsequent
operation sequence. Only the most recent record's callback can fire. -/
theorem superseded_fade_callback_never_fires
    (sc : JSNum → JSNum) (s : FaderState) (f : Fade) (c : JSCallback)
    (now : ℚ) (t : JSNum) (cb : Option JSCallback) (ops : List Op)
    (hf : s.fade = some f) (hc : f.callback = some c)
    (hvalid : validateVolumeLevel t = true)
    (hcb : cbId cb ≠ some c.id)
    (hops : ∀ op ∈ ops, opCbId op ≠ some c.id) :
    c.id ∉ (fadeTo sc s now t cb).events ∧
    c.id ∉ (run sc (fadeTo sc s now t cb).state ops).2 := by
  have hnew : ∀ j, j ∈ (fadeTo sc s now t cb).events → cbId cb = some j := by
    intro j hj
    simp only [fadeTo, hvalid, if_true, start] at hj
    exact updateVolume_events_from_fade sc
      { s with fade := some (newFade s now t cb), active := true } now j hj
  constructor
  · intro hmem
    exact hcb (hnew c.id hmem)
  · refine run_never_fires_unregistered sc c.id ops (fadeTo sc s now t cb).state ?_ hops
    intro hreg
    simp only [fadeTo, hvalid, if_true, start] at hreg
    rcases updateVolume_fade_preserved_or_cleared sc
      { s with fade := some (newFade s now t cb), active := true } now with hk | hk
    · rw [hk] at hreg
      simp only [fadeCbId, newFade] at hreg
      exact hcb hreg
    · rw [hk] at hreg
      simp [fadeCbId] at hreg

/-- Witness for C3: record with callback id 1 superseded by
`fadeTo(1)` with callback id 2, then two animation-frame deliveries
(the second completing the new fade): id 1 never fires. -/
theorem superseded_fade_callback_never_fires_witness :
    1 ∉ (fadeTo linearScaler
      ⟨num 0, true, some ⟨num 0, num 1, num 0, num 1000, some ⟨1, true, false⟩⟩,
        num 500, false⟩ 100 (num 1) (some ⟨2, true, false⟩)).events ∧
    1 ∉ (run linearScaler
      (fadeTo linearScaler
        ⟨num 0, true, some ⟨num 0, num 1, num 0, num 1000, some ⟨1, true, false⟩⟩,
          num 500, false⟩ 100 (num 1) (some ⟨2, true, false⟩)).state
      [Op.opFire 200, Op.opFire 700]).2 :=
  superseded_fade_callback_never_fires linearScaler
    ⟨num 0, true, some ⟨num 0, num 1, num 0, num 1000, some ⟨1, true, false⟩⟩,
      num 500, false⟩
    ⟨num 0, num 1, num 0, num 1000, some ⟨1, true, false⟩⟩
    ⟨1, true, false⟩ 100 (num 1) (some ⟨2, true, false⟩)
    [Op.opFire 200, Op.opFire 700]
    rfl rfl (by decide) (by decide) (by decide)
